import Mathlib

/-!
Verification of the port-agent packet codec (port_agent/packet.py).

The codec is embedded shallowly:
* byte buffers are lists of naturals, each element below 256;
* the header layout "!BBBBHHd" (network byte order) is modelled byte by
  byte; the 64-bit float timestamp is represented by its IEEE-754 bit
  pattern, a natural below 2^64, since the struct codec only moves its
  eight bytes and never interprets them arithmetically;
* exceptions become an explicit error type: the constructor of
  ReceivedPacket returns an Except value, and validate returns the
  mutated object together with an optional error, mirroring the fact
  that the Python method mutates self and then possibly raises.
-/

namespace PortAgent

/-- The sync marker constant, `SYNC = (0xA3, 0x9D, 0x7A)`. -/
def SYNC : Nat × Nat × Nat := (0xA3, 0x9D, 0x7A)

/-- Size of the packed header, `header_struct.size` for `!BBBBHHd`. -/
def HEADER_SIZE : Nat := 16

/-- `MAX_PACKET_SIZE = 2**16`. -/
def MAX_PACKET_SIZE : Nat := 2 ^ 16

/-- `calculateChecksum(data, seed=0)`: XOR-folds every byte of `data`
into `seed`, left to right. -/
def calculateChecksum (data : List Nat) (seed : Nat := 0) : Nat :=
  data.foldl (fun n datum => n ^^^ datum) seed

/-- Big-endian serialization of an unsigned 16-bit value (format `H`). -/
def u16be (n : Nat) : List Nat :=
  [n / 2 ^ 8 % 256, n % 256]

/-- Big-endian serialization of a 64-bit bit pattern (the eight bytes of
format `d`, the timestamp represented by its bit pattern). -/
def u64be (n : Nat) : List Nat :=
  [n / 2 ^ 56 % 256, n / 2 ^ 48 % 256, n / 2 ^ 40 % 256, n / 2 ^ 32 % 256,
   n / 2 ^ 24 % 256, n / 2 ^ 16 % 256, n / 2 ^ 8 % 256, n % 256]

/-- Big-endian deserialization of eight bytes into a 64-bit value. -/
def u64de (b : List Nat) : Nat :=
  b.foldl (fun n d => n * 256 + d) 0

/-- `pack_header(buf, msgtype, pktsize, checksum, timestamp)`: the 16
bytes written at offset 0 of the buffer, layout `!BBBBHHd`. -/
def pack_header (msgtype pktsize checksum timestamp : Nat) : List Nat :=
  [SYNC.1, SYNC.2.1, SYNC.2.2, msgtype % 256] ++
    u16be pktsize ++ u16be checksum ++ u64be timestamp

/-- `unpack_header(buf)`: reads the 16-byte layout back, returning
`(sync_triplet, msgtype, pktsize, checksum, timestamp)`. -/
def unpack_header (buf : List Nat) :
    (Nat × Nat × Nat) × Nat × Nat × Nat × Nat :=
  ((buf.getD 0 0, buf.getD 1 0, buf.getD 2 0),
   buf.getD 3 0,
   buf.getD 4 0 * 256 + buf.getD 5 0,
   buf.getD 6 0 * 256 + buf.getD 7 0,
   u64de ((buf.drop 8).take 8))

/-- `makepacket(msgtype, timestamp, data)`: serialize the header with
checksum zero, append the data, checksum the whole buffer, then
serialize the header again with the real checksum. -/
def makepacket (msgtype timestamp : Nat) (data : List Nat) : List Nat :=
  let pktsize := HEADER_SIZE + data.length
  let pkt := pack_header msgtype pktsize 0 timestamp ++ data
  let checksum := calculateChecksum pkt
  pack_header msgtype pktsize checksum timestamp ++ data

/-- The error taxonomy: `HeaderSizeError(actualLength)`,
`SyncError(observedSyncTriplet)`, `ChecksumError(calculatedChecksum)`. -/
inductive PacketError where
  | headerSizeError (actualLength : Nat)
  | syncError (observed : Nat × Nat × Nat)
  | checksumError (calculated : Nat)
  deriving DecidableEq, Repr

/-- The state of a `ReceivedPacket` object: the stored (mutated) header
buffer, the unpacked read-only attributes, and the `data` attribute,
which is absent until `validate` has been called. `datasize` is a Python
int and may be negative. -/
structure ReceivedPacket where
  header : List Nat
  msgtype : Nat
  pktsize : Nat
  checksum : Nat
  timestamp : Nat
  datasize : Int
  data : Option (List Nat) := none
  deriving DecidableEq, Repr

/-- `ReceivedPacket.__init__(header)`: rejects a wrong-sized buffer with
`HeaderSizeError`, unpacks the header, computes `datasize`, rejects a
bad sync triplet with `SyncError`, and finally rewrites the stored
header buffer with the checksum field forced to zero. -/
def ReceivedPacket.init (header : List Nat) :
    Except PacketError ReceivedPacket :=
  if header.length ≠ HEADER_SIZE then
    .error (.headerSizeError header.length)
  else
    let u := unpack_header header
    let sync := u.1
    let msgtype := u.2.1
    let pktsize := u.2.2.1
    let checksum := u.2.2.2.1
    let timestamp := u.2.2.2.2
    let datasize : Int := (pktsize : Int) - (HEADER_SIZE : Int)
    if sync ≠ SYNC then
      .error (.syncError sync)
    else
      .ok { header := pack_header msgtype pktsize 0 timestamp,
            msgtype := msgtype, pktsize := pktsize, checksum := checksum,
            timestamp := timestamp, datasize := datasize, data := none }

/-- `ReceivedPacket.validate(data)`: stores `data` in the `data`
attribute, recomputes the checksum over the stored header and then the
data, and raises `ChecksumError` if it differs from the received
checksum. Returns the mutated object together with the raised error, if
any. -/
def ReceivedPacket.validate (p : ReceivedPacket) (data : List Nat) :
    ReceivedPacket × Option PacketError :=
  let p := { p with data := some data }
  let rxchecksum := calculateChecksum p.header
  let rxchecksum := calculateChecksum data rxchecksum
  if rxchecksum ≠ p.checksum then
    (p, some (.checksumError rxchecksum))
  else
    (p, none)

/-- Flip bit `k` of the byte at offset `i` of a buffer. -/
def flipBit (l : List Nat) (i k : Nat) : List Nat :=
  l.set i (l.getD i 0 ^^^ 2 ^ k)

/-! ### Checksum lemmas -/

theorem calculateChecksum_append (A B : List Nat) (s : Nat) :
    calculateChecksum (A ++ B) s = calculateChecksum B (calculateChecksum A s) := by
  simp [calculateChecksum, List.foldl_append]

theorem calculateChecksum_seed (l : List Nat) (s : Nat) :
    calculateChecksum l s = s ^^^ calculateChecksum l 0 := by
  induction l generalizing s with
  | nil => simp [calculateChecksum]
  | cons a tl ih =>
      show calculateChecksum tl (s ^^^ a) = s ^^^ calculateChecksum tl (0 ^^^ a)
      rw [ih (s ^^^ a), ih (0 ^^^ a), Nat.zero_xor, Nat.xor_assoc]

theorem calculateChecksum_lt (l : List Nat) :
    ∀ s, (∀ b ∈ l, b < 256) → s < 256 → calculateChecksum l s < 256 := by
  induction l with
  | nil =>
      intro s _ hs
      simpa [calculateChecksum] using hs
  | cons a tl ih =>
      intro s hl hs
      show calculateChecksum tl (s ^^^ a) < 256
      have ha : a < 256 := hl a (List.mem_cons_self a tl)
      have hx : s ^^^ a < 2 ^ 8 :=
        Nat.xor_lt_two_pow (n := 8) (by omega) (by omega)
      exact ih (s ^^^ a) (fun b hb => hl b (List.mem_cons_of_mem a hb)) (by omega)

theorem xor_pow_ne (a k : Nat) : a ^^^ 2 ^ k ≠ a := by
  intro h
  have h2 : a ^^^ (a ^^^ 2 ^ k) = a ^^^ a := congrArg (fun x => a ^^^ x) h
  rw [← Nat.xor_assoc, Nat.xor_self, Nat.zero_xor] at h2
  exact (Nat.two_pow_pos k).ne' h2

/-- XOR-folding a buffer in which one byte has been XORed with `v`
changes the checksum by exactly `v`. -/
theorem calculateChecksum_set (l : List Nat) :
    ∀ i v, i < l.length →
      calculateChecksum (l.set i (l.getD i 0 ^^^ v)) 0 =
        calculateChecksum l 0 ^^^ v := by
  induction l with
  | nil =>
      intro i v hi
      simp at hi
  | cons a tl ih =>
      intro i v hi
      match i with
      | 0 =>
          show calculateChecksum tl (0 ^^^ (a ^^^ v)) = calculateChecksum tl (0 ^^^ a) ^^^ v
          rw [calculateChecksum_seed tl (0 ^^^ (a ^^^ v)),
              calculateChecksum_seed tl (0 ^^^ a), Nat.zero_xor, Nat.zero_xor,
              Nat.xor_assoc, Nat.xor_comm v _, ← Nat.xor_assoc]
      | i + 1 =>
          have hi' : i < tl.length := by simpa using hi
          show calculateChecksum (tl.set i (tl.getD i 0 ^^^ v)) (0 ^^^ a) =
            calculateChecksum tl (0 ^^^ a) ^^^ v
          rw [calculateChecksum_seed (tl.set i (tl.getD i 0 ^^^ v)) (0 ^^^ a),
              calculateChecksum_seed tl (0 ^^^ a), ih i v hi', ← Nat.xor_assoc]

/-! ### Header layout lemmas -/

theorem pack_header_length (m s c t : Nat) :
    (pack_header m s c t).length = HEADER_SIZE := by
  simp [pack_header, u16be, u64be, HEADER_SIZE]

theorem pack_header_bytes_lt (m s c t : Nat) :
    ∀ b ∈ pack_header m s c t, b < 256 := by
  intro b hb
  simp [pack_header, u16be, u64be, SYNC] at hb
  omega

theorem exists16 (l : List Nat) (h : l.length = 16) :
    ∃ b0 b1 b2 b3 b4 b5 b6 b7 b8 b9 b10 b11 b12 b13 b14 b15,
      l = [b0, b1, b2, b3, b4, b5, b6, b7, b8, b9, b10, b11, b12, b13, b14, b15] := by
  obtain ⟨b0, l, rfl⟩ := List.exists_of_length_succ (n := 15) l (by omega)
  obtain ⟨b1, l, rfl⟩ := List.exists_of_length_succ (n := 14) l (by simp at h; omega)
  obtain ⟨b2, l, rfl⟩ := List.exists_of_length_succ (n := 13) l (by simp at h; omega)
  obtain ⟨b3, l, rfl⟩ := List.exists_of_length_succ (n := 12) l (by simp at h; omega)
  obtain ⟨b4, l, rfl⟩ := List.exists_of_length_succ (n := 11) l (by simp at h; omega)
  obtain ⟨b5, l, rfl⟩ := List.exists_of_length_succ (n := 10) l (by simp at h; omega)
  obtain ⟨b6, l, rfl⟩ := List.exists_of_length_succ (n := 9) l (by simp at h; omega)
  obtain ⟨b7, l, rfl⟩ := List.exists_of_length_succ (n := 8) l (by simp at h; omega)
  obtain ⟨b8, l, rfl⟩ := List.exists_of_length_succ (n := 7) l (by simp at h; omega)
  obtain ⟨b9, l, rfl⟩ := List.exists_of_length_succ (n := 6) l (by simp at h; omega)
  obtain ⟨b10, l, rfl⟩ := List.exists_of_length_succ (n := 5) l (by simp at h; omega)
  obtain ⟨b11, l, rfl⟩ := List.exists_of_length_succ (n := 4) l (by simp at h; omega)
  obtain ⟨b12, l, rfl⟩ := List.exists_of_length_succ (n := 3) l (by simp at h; omega)
  obtain ⟨b13, l, rfl⟩ := List.exists_of_length_succ (n := 2) l (by simp at h; omega)
  obtain ⟨b14, l, rfl⟩ := List.exists_of_length_succ (n := 1) l (by simp at h; omega)
  obtain ⟨b15, l, rfl⟩ := List.exists_of_length_succ (n := 0) l (by simp at h; omega)
  have hz : l = [] := by simpa using h
  subst hz
  exact ⟨b0, b1, b2, b3, b4, b5, b6, b7, b8, b9, b10, b11, b12, b13, b14, b15, rfl⟩

theorem unpack_explicit (b0 b1 b2 b3 b4 b5 b6 b7 b8 b9 b10 b11 b12 b13 b14 b15 : Nat) :
    unpack_header [b0, b1, b2, b3, b4, b5, b6, b7, b8, b9, b10, b11, b12, b13, b14, b15] =
      ((b0, b1, b2), b3, b4 * 256 + b5, b6 * 256 + b7,
        u64de [b8, b9, b10, b11, b12, b13, b14, b15]) := by
  simp [unpack_header]

theorem pack_unpack_explicit (b3 b4 b5 b8 b9 b10 b11 b12 b13 b14 b15 : Nat)
    (h3 : b3 < 256) (h4 : b4 < 256) (h5 : b5 < 256) (h8 : b8 < 256) (h9 : b9 < 256)
    (h10 : b10 < 256) (h11 : b11 < 256) (h12 : b12 < 256) (h13 : b13 < 256)
    (h14 : b14 < 256) (h15 : b15 < 256) :
    pack_header b3 (b4 * 256 + b5) 0
        (u64de [b8, b9, b10, b11, b12, b13, b14, b15]) =
      [0xA3, 0x9D, 0x7A, b3, b4, b5, 0, 0, b8, b9, b10, b11, b12, b13, b14, b15] := by
  simp only [pack_header, u16be, u64be, u64de, SYNC, List.foldl_cons, List.foldl_nil,
    List.cons_append, List.nil_append, List.cons.injEq, and_true]
  norm_num
  omega

theorem unpack_pack (m s c t : Nat)
    (hm : m < 256) (hs : s < 65536) (hc : c < 65536) (ht : t < 2 ^ 64) :
    unpack_header (pack_header m s c t) = ((0xA3, 0x9D, 0x7A), m, s, c, t) := by
  simp [unpack_header, pack_header, u16be, u64be, u64de, SYNC]
  refine ⟨?_, ?_, ?_, ?_⟩ <;> omega

/-! ### Constructor unfolding lemmas -/

theorem init_of_bad_length (buf : List Nat) (hlen : buf.length ≠ HEADER_SIZE) :
    ReceivedPacket.init buf = .error (.headerSizeError buf.length) := by
  unfold ReceivedPacket.init
  rw [if_pos hlen]

theorem init_of_bad_sync (buf : List Nat) (hlen : buf.length = HEADER_SIZE)
    (hsync : (unpack_header buf).1 ≠ SYNC) :
    ReceivedPacket.init buf = .error (.syncError (unpack_header buf).1) := by
  unfold ReceivedPacket.init
  rw [if_neg (by omega), if_pos hsync]

theorem init_of_length_sync (buf : List Nat) (hlen : buf.length = HEADER_SIZE)
    (hsync : (unpack_header buf).1 = SYNC) :
    ReceivedPacket.init buf =
      .ok { header := pack_header (unpack_header buf).2.1 (unpack_header buf).2.2.1 0
                        (unpack_header buf).2.2.2.2,
            msgtype := (unpack_header buf).2.1,
            pktsize := (unpack_header buf).2.2.1,
            checksum := (unpack_header buf).2.2.2.1,
            timestamp := (unpack_header buf).2.2.2.2,
            datasize := ((unpack_header buf).2.2.1 : Int) - (HEADER_SIZE : Int),
            data := none } := by
  unfold ReceivedPacket.init
  rw [if_neg (by omega), if_neg (by rw [hsync]; simp)]

/-- Constructing a `ReceivedPacket` from any well-formed 16-byte buffer
whose sync bytes are correct: the stored header is the input buffer with
the checksum field (offsets 6 and 7) zeroed, and the attributes are the
decoded fields. -/
theorem init_valid (buf : List Nat) (hlen : buf.length = 16)
    (hbytes : ∀ b ∈ buf, b < 256)
    (h0 : buf.getD 0 0 = 0xA3) (h1 : buf.getD 1 0 = 0x9D) (h2 : buf.getD 2 0 = 0x7A) :
    ReceivedPacket.init buf =
      .ok { header := (buf.set 6 0).set 7 0,
            msgtype := buf.getD 3 0,
            pktsize := buf.getD 4 0 * 256 + buf.getD 5 0,
            checksum := buf.getD 6 0 * 256 + buf.getD 7 0,
            timestamp := u64de ((buf.drop 8).take 8),
            datasize := (buf.getD 4 0 * 256 + buf.getD 5 0 : Int) - 16,
            data := none } := by
  obtain ⟨b0, b1, b2, b3, b4, b5, b6, b7, b8, b9, b10, b11, b12, b13, b14, b15, rfl⟩ :=
    exists16 buf hlen
  simp only [List.getD_cons_zero, List.getD_cons_succ] at h0 h1 h2
  subst h0; subst h1; subst h2
  have h3 : b3 < 256 := hbytes _ (by simp)
  have h4 : b4 < 256 := hbytes _ (by simp)
  have h5 : b5 < 256 := hbytes _ (by simp)
  have h8 : b8 < 256 := hbytes _ (by simp)
  have h9 : b9 < 256 := hbytes _ (by simp)
  have h10 : b10 < 256 := hbytes _ (by simp)
  have h11 : b11 < 256 := hbytes _ (by simp)
  have h12 : b12 < 256 := hbytes _ (by simp)
  have h13 : b13 < 256 := hbytes _ (by simp)
  have h14 : b14 < 256 := hbytes _ (by simp)
  have h15 : b15 < 256 := hbytes _ (by simp)
  have hsync : (unpack_header
      [0xA3, 0x9D, 0x7A, b3, b4, b5, b6, b7, b8, b9, b10, b11, b12, b13, b14, b15]).1 = SYNC := by
    rw [unpack_explicit]
    rfl
  rw [init_of_length_sync _ hlen hsync, unpack_explicit]
  simp only [List.set_cons_succ, List.set_cons_zero, List.drop_succ_cons, List.drop_nil,
    List.drop_zero, List.take_succ_cons, List.take_nil, List.take_zero,
    List.getD_cons_zero, List.getD_cons_succ, HEADER_SIZE]
  rw [pack_unpack_explicit b3 b4 b5 b8 b9 b10 b11 b12 b13 b14 b15
    h3 h4 h5 h8 h9 h10 h11 h12 h13 h14 h15]
  norm_cast

/-- Zeroing the two checksum bytes of a packed header gives the header
packed with checksum zero. -/
theorem pack_set67 (m s c t : Nat) :
    ((pack_header m s c t).set 6 0).set 7 0 = pack_header m s 0 t := by
  simp only [pack_header, u16be, u64be, SYNC, List.cons_append, List.nil_append,
    List.set_cons_succ, List.set_cons_zero]
  norm_num

theorem makepacket_eq (m t : Nat) (data : List Nat) :
    makepacket m t data =
      pack_header m (HEADER_SIZE + data.length)
        (calculateChecksum (pack_header m (HEADER_SIZE + data.length) 0 t ++ data)) t ++
        data := rfl

theorem makepacket_take (m t : Nat) (data : List Nat) :
    (makepacket m t data).take HEADER_SIZE =
      pack_header m (HEADER_SIZE + data.length)
        (calculateChecksum (pack_header m (HEADER_SIZE + data.length) 0 t ++ data)) t := by
  rw [makepacket_eq]
  exact List.take_left' (pack_header_length _ _ _ _)

theorem makepacket_drop (m t : Nat) (data : List Nat) :
    (makepacket m t data).drop HEADER_SIZE = data := by
  rw [makepacket_eq]
  exact List.drop_left' (pack_header_length _ _ _ _)

/-- The checksum of a built packet is a single byte, provided the
payload consists of bytes. -/
theorem makepacket_checksum_lt (m s t : Nat) (data : List Nat)
    (hd : ∀ b ∈ data, b < 256) :
    calculateChecksum (pack_header m s 0 t ++ data) < 256 := by
  refine calculateChecksum_lt _ 0 ?_ (by omega)
  intro b hb
  rcases List.mem_append.mp hb with h | h
  · exact pack_header_bytes_lt m s 0 t b h
  · exact hd b h

theorem validate_of_eq (p : ReceivedPacket) (d : List Nat)
    (h : calculateChecksum d (calculateChecksum p.header) = p.checksum) :
    p.validate d = ({ p with data := some d }, none) := by
  unfold ReceivedPacket.validate
  rw [if_neg (by simpa using h)]

theorem validate_of_ne (p : ReceivedPacket) (d : List Nat)
    (h : calculateChecksum d (calculateChecksum p.header) ≠ p.checksum) :
    p.validate d =
      ({ p with data := some d },
        some (.checksumError (calculateChecksum d (calculateChecksum p.header)))) := by
  unfold ReceivedPacket.validate
  rw [if_pos (by simpa using h)]

/-- The first receive phase on the header of a packet built by
`makepacket` succeeds and recovers the fields that were passed in. -/
theorem init_makepacket (m t : Nat) (data : List Nat)
    (hm : m < 256) (ht : t < 2 ^ 64) (hd : ∀ b ∈ data, b < 256)
    (hl : data.length ≤ 65519) :
    ReceivedPacket.init ((makepacket m t data).take HEADER_SIZE) =
      .ok { header := pack_header m (HEADER_SIZE + data.length) 0 t,
            msgtype := m,
            pktsize := HEADER_SIZE + data.length,
            checksum :=
              calculateChecksum (pack_header m (HEADER_SIZE + data.length) 0 t ++ data),
            timestamp := t,
            datasize := (data.length : Int),
            data := none } := by
  rw [makepacket_take]
  have hc : calculateChecksum (pack_header m (HEADER_SIZE + data.length) 0 t ++ data) < 256 :=
    makepacket_checksum_lt m (HEADER_SIZE + data.length) t data hd
  have hps : HEADER_SIZE + data.length < 65536 := by
    simp only [HEADER_SIZE]
    omega
  have hu := unpack_pack m (HEADER_SIZE + data.length)
    (calculateChecksum (pack_header m (HEADER_SIZE + data.length) 0 t ++ data)) t
    hm hps (by omega) ht
  rw [init_of_length_sync _ (pack_header_length _ _ _ _) (by rw [hu]; rfl), hu]
  simp only [Except.ok.injEq, ReceivedPacket.mk.injEq, HEADER_SIZE, true_and, and_true]
  push_cast
  omega

/-! ### Lemmas about single-byte modifications -/

theorem getD_append_left (l1 l2 : List Nat) (i d : Nat) (h : i < l1.length) :
    (l1 ++ l2).getD i d = l1.getD i d := by
  simp [List.getD_eq_getElem?_getD, List.getElem?_append_left h]

theorem getD_append_right (l1 l2 : List Nat) (i d : Nat) (h : l1.length ≤ i) :
    (l1 ++ l2).getD i d = l2.getD (i - l1.length) d := by
  simp [List.getD_eq_getElem?_getD, List.getElem?_append_right h]

theorem getD_set_ne (l : List Nat) (i j x d : Nat) (h : i ≠ j) :
    (l.set i x).getD j d = l.getD j d := by
  simp [List.getD_eq_getElem?_getD, List.getElem?_set_ne h]

theorem getD_lt_of_bytes (l : List Nat) (hl : ∀ b ∈ l, b < 256) (i : Nat) :
    l.getD i 0 < 256 := by
  rcases Nat.lt_or_ge i l.length with h | h
  · rw [List.getD_eq_getElem?_getD, List.getElem?_eq_getElem h]
    exact hl _ (List.getElem_mem h)
  · rw [List.getD_eq_getElem?_getD, List.getElem?_eq_none h]
    simp

theorem flipBit_length (l : List Nat) (i k : Nat) :
    (flipBit l i k).length = l.length := by
  simp [flipBit]

theorem flipBit_bytes_lt (l : List Nat) (i k : Nat) (hl : ∀ b ∈ l, b < 256)
    (hk : k < 8) : ∀ b ∈ flipBit l i k, b < 256 := by
  intro b hb
  rcases List.mem_or_eq_of_mem_set hb with h | h
  · exact hl b h
  · subst h
    have h1 : l.getD i 0 < 2 ^ 8 := getD_lt_of_bytes l hl i
    have h2 : (2 : Nat) ^ k < 2 ^ 8 := Nat.pow_lt_pow_right (by omega) hk
    have := Nat.xor_lt_two_pow (n := 8) h1 h2
    omega

theorem flipBit_append_left (l1 l2 : List Nat) (i k : Nat) (h : i < l1.length) :
    flipBit (l1 ++ l2) i k = flipBit l1 i k ++ l2 := by
  unfold flipBit
  rw [getD_append_left l1 l2 i 0 h, List.set_append_left i _ (by simpa using h)]

theorem flipBit_append_right (l1 l2 : List Nat) (i k : Nat) (h : l1.length ≤ i) :
    flipBit (l1 ++ l2) i k = l1 ++ flipBit l2 (i - l1.length) k := by
  unfold flipBit
  rw [getD_append_right l1 l2 i 0 h, List.set_append_right i _ (by simpa using h)]

theorem pack_getD0 (m s c t : Nat) : (pack_header m s c t).getD 0 0 = 0xA3 := by
  simp [pack_header, SYNC]

theorem pack_getD1 (m s c t : Nat) : (pack_header m s c t).getD 1 0 = 0x9D := by
  simp [pack_header, SYNC]

theorem pack_getD2 (m s c t : Nat) : (pack_header m s c t).getD 2 0 = 0x7A := by
  simp [pack_header, SYNC]

theorem pack_getD6 (m s c t : Nat) : (pack_header m s c t).getD 6 0 = c / 2 ^ 8 % 256 := by
  simp [pack_header, u16be, u64be]

theorem pack_getD7 (m s c t : Nat) : (pack_header m s c t).getD 7 0 = c % 256 := by
  simp [pack_header, u16be, u64be]

/-- Outside the checksum field, a packed header does not depend on the
checksum value. -/
theorem pack_getD_ne67 (m s c t c' : Nat) (i : Nat) (h6 : i ≠ 6) (h7 : i ≠ 7) :
    (pack_header m s c t).getD i 0 = (pack_header m s c' t).getD i 0 := by
  rcases Nat.lt_or_ge i 16 with h | h
  · interval_cases i <;> simp_all [pack_header, u16be, u64be]
  · rw [List.getD_eq_getElem?_getD, List.getD_eq_getElem?_getD,
      List.getElem?_eq_none (by rw [pack_header_length]; exact h),
      List.getElem?_eq_none (by rw [pack_header_length]; exact h)]

theorem flipBit_getD_ne (l : List Nat) (i j k d : Nat) (h : i ≠ j) :
    (flipBit l i k).getD j d = l.getD j d :=
  getD_set_ne l i j _ d h

theorem calculateChecksum_flipBit (l : List Nat) (i k : Nat) (h : i < l.length) :
    calculateChecksum (flipBit l i k) 0 = calculateChecksum l 0 ^^^ 2 ^ k :=
  calculateChecksum_set l i (2 ^ k) h

theorem makepacket_length (m t : Nat) (data : List Nat) :
    (makepacket m t data).length = 16 + data.length := by
  rw [makepacket_eq, List.length_append, pack_header_length]
  rfl

/-- C2 (amended): flipping any single bit of a built packet outside the
sync field (offsets 0-2) and the checksum field (offsets 6-7) makes the
two-phase receive raise `ChecksumError`. -/
theorem corruption_detection_flip (m t : Nat) (data : List Nat)
    (hm : m < 256) (ht : t < 2 ^ 64) (hd : ∀ b ∈ data, b < 256)
    (hl : data.length ≤ 65519) (i k : Nat) (hk : k < 8)
    (hi : i = 3 ∨ i = 4 ∨ i = 5 ∨ (8 ≤ i ∧ i < (makepacket m t data).length)) :
    ∃ (p : ReceivedPacket) (c : Nat),
      ReceivedPacket.init ((flipBit (makepacket m t data) i k).take HEADER_SIZE) = .ok p ∧
      (p.validate ((flipBit (makepacket m t data) i k).drop HEADER_SIZE)).2 =
        some (.checksumError c) ∧
      c ≠ p.checksum := by
  rw [makepacket_length] at hi
  have hc0 : calculateChecksum (pack_header m (HEADER_SIZE + data.length) 0 t ++ data) < 256 :=
    makepacket_checksum_lt m (HEADER_SIZE + data.length) t data hd
  rcases (show (3 ≤ i ∧ i < 16 ∧ i ≠ 6 ∧ i ≠ 7) ∨ (16 ≤ i ∧ i < 16 + data.length) by omega)
    with ⟨hi3, hi16, h6, h7⟩ | ⟨h16, hilt⟩
  · -- bit flipped inside the header, outside sync and checksum fields
    have hflip : flipBit (makepacket m t data) i k =
        flipBit (pack_header m (HEADER_SIZE + data.length)
          (calculateChecksum (pack_header m (HEADER_SIZE + data.length) 0 t ++ data)) t) i k ++
          data := by
      rw [makepacket_eq]
      exact flipBit_append_left _ _ i k (by rw [pack_header_length]; exact hi16)
    have hlen' : (flipBit (pack_header m (HEADER_SIZE + data.length)
        (calculateChecksum (pack_header m (HEADER_SIZE + data.length) 0 t ++ data)) t) i k).length =
        HEADER_SIZE := by
      rw [flipBit_length, pack_header_length]
    have htake : (flipBit (pack_header m (HEADER_SIZE + data.length)
        (calculateChecksum (pack_header m (HEADER_SIZE + data.length) 0 t ++ data)) t) i k ++
          data).take HEADER_SIZE =
        flipBit (pack_header m (HEADER_SIZE + data.length)
          (calculateChecksum (pack_header m (HEADER_SIZE + data.length) 0 t ++ data)) t) i k :=
      List.take_left' hlen'
    have hdrop : (flipBit (pack_header m (HEADER_SIZE + data.length)
        (calculateChecksum (pack_header m (HEADER_SIZE + data.length) 0 t ++ data)) t) i k ++
          data).drop HEADER_SIZE = data :=
      List.drop_left' hlen'
    have hbytes' : ∀ b ∈ flipBit (pack_header m (HEADER_SIZE + data.length)
        (calculateChecksum (pack_header m (HEADER_SIZE + data.length) 0 t ++ data)) t) i k,
        b < 256 :=
      flipBit_bytes_lt _ i k (pack_header_bytes_lt _ _ _ _) hk
    have hinit := init_valid _ (by rw [hlen']; rfl) hbytes'
      (by rw [flipBit_getD_ne _ _ _ _ _ (by omega), pack_getD0])
      (by rw [flipBit_getD_ne _ _ _ _ _ (by omega), pack_getD1])
      (by rw [flipBit_getD_ne _ _ _ _ _ (by omega), pack_getD2])
    have hheader : ((flipBit (pack_header m (HEADER_SIZE + data.length)
        (calculateChecksum (pack_header m (HEADER_SIZE + data.length) 0 t ++ data)) t) i k).set
          6 0).set 7 0 =
        flipBit (pack_header m (HEADER_SIZE + data.length) 0 t) i k := by
      unfold flipBit
      rw [pack_getD_ne67 _ _ _ _ 0 i h6 h7,
        List.set_comm _ _ _ (by omega : i ≠ 6),
        List.set_comm _ _ _ (by omega : i ≠ 7),
        pack_set67]
    have hcs : (flipBit (pack_header m (HEADER_SIZE + data.length)
          (calculateChecksum (pack_header m (HEADER_SIZE + data.length) 0 t ++ data)) t)
            i k).getD 6 0 * 256 +
        (flipBit (pack_header m (HEADER_SIZE + data.length)
          (calculateChecksum (pack_header m (HEADER_SIZE + data.length) 0 t ++ data)) t)
            i k).getD 7 0 =
        calculateChecksum (pack_header m (HEADER_SIZE + data.length) 0 t ++ data) := by
      rw [flipBit_getD_ne _ _ _ _ _ h6, flipBit_getD_ne _ _ _ _ _ h7, pack_getD6, pack_getD7]
      omega
    rw [hheader, hcs] at hinit
    have hrx : calculateChecksum data
        (calculateChecksum (flipBit (pack_header m (HEADER_SIZE + data.length) 0 t) i k)) =
        calculateChecksum (pack_header m (HEADER_SIZE + data.length) 0 t ++ data) ^^^ 2 ^ k := by
      rw [← calculateChecksum_append, ← flipBit_append_left _ _ i k
        (by rw [pack_header_length]; exact hi16),
        calculateChecksum_flipBit _ i k
          (by rw [List.length_append, pack_header_length]; simp [HEADER_SIZE]; omega),
        calculateChecksum_append]
    refine ⟨_, calculateChecksum (pack_header m (HEADER_SIZE + data.length) 0 t ++ data) ^^^ 2 ^ k,
      by rw [hflip, htake, hinit], ?_, ?_⟩
    · rw [hflip, hdrop, validate_of_ne _ _ (by rw [hrx]; exact xor_pow_ne _ k)]
      exact congrArg (fun x => some (PacketError.checksumError x)) hrx
    · exact xor_pow_ne _ k
  · -- bit flipped inside the payload
    have hflip : flipBit (makepacket m t data) i k =
        pack_header m (HEADER_SIZE + data.length)
          (calculateChecksum (pack_header m (HEADER_SIZE + data.length) 0 t ++ data)) t ++
          flipBit data (i - 16) k := by
      rw [makepacket_eq]
      rw [flipBit_append_right _ _ i k (by rw [pack_header_length]; exact h16),
        pack_header_length]
      rfl
    have htake : (pack_header m (HEADER_SIZE + data.length)
        (calculateChecksum (pack_header m (HEADER_SIZE + data.length) 0 t ++ data)) t ++
          flipBit data (i - 16) k).take HEADER_SIZE =
        pack_header m (HEADER_SIZE + data.length)
          (calculateChecksum (pack_header m (HEADER_SIZE + data.length) 0 t ++ data)) t :=
      List.take_left' (pack_header_length _ _ _ _)
    have hdrop : (pack_header m (HEADER_SIZE + data.length)
        (calculateChecksum (pack_header m (HEADER_SIZE + data.length) 0 t ++ data)) t ++
          flipBit data (i - 16) k).drop HEADER_SIZE = flipBit data (i - 16) k :=
      List.drop_left' (pack_header_length _ _ _ _)
    have hinit : ReceivedPacket.init (pack_header m (HEADER_SIZE + data.length)
        (calculateChecksum (pack_header m (HEADER_SIZE + data.length) 0 t ++ data)) t) =
        .ok { header := pack_header m (HEADER_SIZE + data.length) 0 t,
              msgtype := m,
              pktsize := HEADER_SIZE + data.length,
              checksum :=
                calculateChecksum (pack_header m (HEADER_SIZE + data.length) 0 t ++ data),
              timestamp := t,
              datasize := (data.length : Int),
              data := none } := by
      rw [← makepacket_take]
      exact init_makepacket m t data hm ht hd hl
    have hsplit : flipBit (pack_header m (HEADER_SIZE + data.length) 0 t ++ data) i k =
        pack_header m (HEADER_SIZE + data.length) 0 t ++ flipBit data (i - 16) k := by
      rw [flipBit_append_right _ _ i k (by rw [pack_header_length]; exact h16),
        pack_header_length]
      rfl
    have hrx : calculateChecksum (flipBit data (i - 16) k)
        (calculateChecksum (pack_header m (HEADER_SIZE + data.length) 0 t)) =
        calculateChecksum (pack_header m (HEADER_SIZE + data.length) 0 t ++ data) ^^^ 2 ^ k := by
      rw [← calculateChecksum_append, ← hsplit, calculateChecksum_flipBit _ i k
        (by rw [List.length_append, pack_header_length]; simp [HEADER_SIZE]; omega),
        calculateChecksum_append]
    refine ⟨_, calculateChecksum (pack_header m (HEADER_SIZE + data.length) 0 t ++ data) ^^^ 2 ^ k,
      by rw [hflip, htake, hinit], ?_, ?_⟩
    · rw [hflip, hdrop, validate_of_ne _ _ (by rw [hrx]; exact xor_pow_ne _ k)]
      exact congrArg (fun x => some (PacketError.checksumError x)) hrx
    · exact xor_pow_ne _ k

/-- Inverting a successful construction: the buffer had length 16 and a
correct sync triplet. -/
theorem init_ok_elim (buf : List Nat) (p : ReceivedPacket)
    (hok : ReceivedPacket.init buf = .ok p) :
    buf.length = 16 ∧ (unpack_header buf).1 = SYNC := by
  by_cases hlen : buf.length = HEADER_SIZE
  · by_cases hs : (unpack_header buf).1 = SYNC
    · exact ⟨hlen, hs⟩
    · rw [init_of_bad_sync buf hlen hs] at hok
      cases hok
  · rw [init_of_bad_length buf hlen] at hok
    cases hok

/-- The header stored by a successful construction consists of bytes. -/
theorem init_ok_header_bytes (buf : List Nat) (p : ReceivedPacket)
    (hok : ReceivedPacket.init buf = .ok p) : ∀ b ∈ p.header, b < 256 := by
  obtain ⟨hlen, hsync⟩ := init_ok_elim buf p hok
  rw [init_of_length_sync buf hlen hsync] at hok
  have hp := (Except.ok.injEq _ _).mp hok
  intro b hb
  rw [← hp] at hb
  exact pack_header_bytes_lt _ _ _ _ b hb

/-! ### The claims -/

/-- C1: Build/parse round-trip. For every msgtype below 256, every
timestamp (bit pattern), and every byte sequence `data` of length at
most 65519, constructing a `ReceivedPacket` from the first 16 bytes of
`makepacket msgtype timestamp data` succeeds, its `datasize` attribute
equals the length of `data`, and `validate` on the remaining bytes
succeeds and reproduces the original `msgtype`, `timestamp` and `data`
exactly. -/
theorem roundtrip_build_parse_validate (m t : Nat) (data : List Nat)
    (hm : m < 256) (ht : t < 2 ^ 64) (hd : ∀ b ∈ data, b < 256)
    (hl : data.length ≤ 65519) :
    ∃ p : ReceivedPacket,
      ReceivedPacket.init ((makepacket m t data).take HEADER_SIZE) = .ok p ∧
      p.datasize = (data.length : Int) ∧
      p.msgtype = m ∧
      p.timestamp = t ∧
      (p.validate ((makepacket m t data).drop HEADER_SIZE)).2 = none ∧
      (p.validate ((makepacket m t data).drop HEADER_SIZE)).1.data = some data := by
  refine ⟨_, init_makepacket m t data hm ht hd hl, rfl, rfl, rfl, ?_, ?_⟩
  · rw [makepacket_drop, validate_of_eq _ _ (calculateChecksum_append _ data 0).symm]
  · rw [makepacket_drop, validate_of_eq _ _ (calculateChecksum_append _ data 0).symm]

theorem roundtrip_build_parse_validate_witness :
    (1 : Nat) < 256 ∧ (0 : Nat) < 2 ^ 64 ∧ (∀ b ∈ [65, 66], b < 256) ∧
    ([65, 66] : List Nat).length ≤ 65519 ∧
    ∃ p : ReceivedPacket,
      ReceivedPacket.init ((makepacket 1 0 [65, 66]).take HEADER_SIZE) = .ok p ∧
      p.datasize = (([65, 66] : List Nat).length : Int) ∧
      p.msgtype = 1 ∧
      p.timestamp = 0 ∧
      (p.validate ((makepacket 1 0 [65, 66]).drop HEADER_SIZE)).2 = none ∧
      (p.validate ((makepacket 1 0 [65, 66]).drop HEADER_SIZE)).1.data = some [65, 66] :=
  ⟨by decide, by decide, by decide, by decide,
    roundtrip_build_parse_validate 1 0 [65, 66] (by decide) (by decide) (by decide) (by decide)⟩

/-- C4: Checksum chaining. For all byte sequences `A` and `B`,
`calculateChecksum (A ++ B) = calculateChecksum B (calculateChecksum A)`:
XOR-folding the concatenation with seed 0 equals folding `B` seeded with
the fold of `A`, for every split point. -/
theorem checksum_chaining (A B : List Nat) :
    calculateChecksum (A ++ B) = calculateChecksum B (calculateChecksum A) :=
  calculateChecksum_append A B 0

/-- C5: Sync rejection. Constructing a `ReceivedPacket` from any 16-byte
buffer whose first three bytes are not exactly (0xA3, 0x9D, 0x7A) raises
`SyncError` carrying the observed sync triplet, regardless of the
remaining header fields. -/
theorem sync_rejection (buf : List Nat) (hlen : buf.length = 16)
    (hsync : ¬(buf.getD 0 0 = 0xA3 ∧ buf.getD 1 0 = 0x9D ∧ buf.getD 2 0 = 0x7A)) :
    ReceivedPacket.init buf =
      .error (.syncError (buf.getD 0 0, buf.getD 1 0, buf.getD 2 0)) := by
  have h1 : (unpack_header buf).1 ≠ SYNC := by
    show (buf.getD 0 0, buf.getD 1 0, buf.getD 2 0) ≠ SYNC
    simp only [SYNC, ne_eq, Prod.mk.injEq, not_and]
    intro a b
    exact fun c => hsync ⟨a, b, c⟩
  rw [init_of_bad_sync buf hlen h1]
  rfl

theorem sync_rejection_witness :
    (List.replicate 16 0).length = 16 ∧
    ¬((List.replicate 16 (0 : Nat)).getD 0 0 = 0xA3 ∧
      (List.replicate 16 (0 : Nat)).getD 1 0 = 0x9D ∧
      (List.replicate 16 (0 : Nat)).getD 2 0 = 0x7A) ∧
    ReceivedPacket.init (List.replicate 16 0) =
      .error (.syncError ((List.replicate 16 (0 : Nat)).getD 0 0,
        (List.replicate 16 (0 : Nat)).getD 1 0, (List.replicate 16 (0 : Nat)).getD 2 0)) :=
  ⟨by decide, by decide, sync_rejection (List.replicate 16 0) (by decide) (by decide)⟩

/-- C6: Size rejection. Constructing a `ReceivedPacket` raises
`HeaderSizeError` carrying the buffer's actual length exactly when the
buffer's length differs from `HEADER_SIZE` (16); if it does, no other
outcome occurs. -/
theorem size_rejection (buf : List Nat) :
    ReceivedPacket.init buf = .error (.headerSizeError buf.length) ↔ buf.length ≠ 16 := by
  constructor
  · intro h hlen
    by_cases hs : (unpack_header buf).1 = SYNC
    · rw [init_of_length_sync buf hlen hs] at h
      cases h
    · rw [init_of_bad_sync buf hlen hs] at h
      simp at h
  · intro hlen
    exact init_of_bad_length buf hlen

theorem size_rejection_witness :
    (ReceivedPacket.init ([] : List Nat) =
      .error (.headerSizeError ([] : List Nat).length)) ∧
    ([] : List Nat).length ≠ 16 :=
  ⟨(size_rejection []).mpr (by decide), by decide⟩

theorem getD_set_self (l : List Nat) (i x d : Nat) (h : i < l.length) :
    (l.set i x).getD i d = x := by
  simp [List.getD_eq_getElem?_getD, List.getElem?_set_self h]

/-- C2 counterexample: flipping bit 0 of byte 0 (a sync byte) of a built
packet makes the first receive phase raise `SyncError`, not
`ChecksumError`, contradicting the claim for header offsets 0-2. -/
theorem corruption_detection_sync_counterexample :
    ReceivedPacket.init ((flipBit (makepacket 1 0 []) 0 0).take HEADER_SIZE) =
      .error (.syncError (0xA2, 0x9D, 0x7A)) ∧
    (ReceivedPacket.init ((flipBit (makepacket 1 0 []) 0 0).take HEADER_SIZE)).isOk = false :=
  ⟨by rfl, by rfl⟩

theorem corruption_detection_flip_witness :
    (1 : Nat) < 256 ∧ (0 : Nat) < 2 ^ 64 ∧ (∀ b ∈ [65], (b : Nat) < 256) ∧
    ([65] : List Nat).length ≤ 65519 ∧ (0 : Nat) < 8 ∧
    ((3 : Nat) = 3 ∨ (3 : Nat) = 4 ∨ (3 : Nat) = 5 ∨
      (8 ≤ 3 ∧ 3 < (makepacket 1 0 [65]).length)) ∧
    ∃ (p : ReceivedPacket) (c : Nat),
      ReceivedPacket.init ((flipBit (makepacket 1 0 [65]) 3 0).take HEADER_SIZE) = .ok p ∧
      (p.validate ((flipBit (makepacket 1 0 [65]) 3 0).drop HEADER_SIZE)).2 =
        some (.checksumError c) ∧
      c ≠ p.checksum :=
  ⟨by decide, by decide, by decide, by decide, by decide, Or.inl rfl,
    corruption_detection_flip 1 0 [65] (by decide) (by decide) (by decide) (by decide) 3 0
      (by decide) (Or.inl rfl)⟩

/-- C3 (amended): `validate` stores its argument into the `data`
attribute unconditionally, before the checksum comparison, so the
payload is set even when `ChecksumError` is raised; success is
equivalent to the recomputed checksum matching the received field. -/
theorem validate_stores_payload (p : ReceivedPacket) (d : List Nat) :
    (p.validate d).1.data = some d ∧
    ((p.validate d).2 = none ↔
      calculateChecksum d (calculateChecksum p.header) = p.checksum) := by
  by_cases h : calculateChecksum d (calculateChecksum p.header) = p.checksum
  · rw [validate_of_eq p d h]
    simp [h]
  · rw [validate_of_ne p d h]
    simp [h]

/-- C3 counterexample: on a parsed header whose received checksum (7)
does not match, `validate [97]` raises `ChecksumError` and nevertheless
sets the `data` attribute to the supplied payload, so the payload is
observable and the state has changed. -/
theorem validate_atomicity_counterexample :
    ReceivedPacket.init (pack_header 1 16 7 0) =
      .ok { header := pack_header 1 16 0 0, msgtype := 1, pktsize := 16, checksum := 7,
            timestamp := 0, datasize := 0, data := none } ∧
    (({ header := pack_header 1 16 0 0, msgtype := 1, pktsize := 16, checksum := 7,
        timestamp := 0, datasize := 0, data := none } : ReceivedPacket).validate [97]).2 =
      some (.checksumError 52) ∧
    (({ header := pack_header 1 16 0 0, msgtype := 1, pktsize := 16, checksum := 7,
        timestamp := 0, datasize := 0, data := none } : ReceivedPacket).validate [97]).1.data =
      some [97] :=
  ⟨by rfl, by rfl, by rfl⟩

theorem pack_getD4 (m s c t : Nat) : (pack_header m s c t).getD 4 0 = s / 2 ^ 8 % 256 := by
  simp [pack_header, u16be, u64be]

theorem pack_getD5 (m s c t : Nat) : (pack_header m s c t).getD 5 0 = s % 256 := by
  simp [pack_header, u16be, u64be]

/-- C7: Size boundaries. `makepacket` with empty data produces a valid
packet whose pktsize field is 16; with data of length 65519 the pktsize
field is 65535, the total length is 65535, and 65535 is the maximum
value of the unsigned 16-bit pktsize field. -/
theorem size_boundaries (m t : Nat) (data : List Nat)
    (hm : m < 256) (ht : t < 2 ^ 64) (hd : ∀ b ∈ data, b < 256)
    (hlen : data.length = 65519) :
    ((makepacket m t []).getD 4 0 * 256 + (makepacket m t []).getD 5 0 = 16 ∧
      ∃ p, ReceivedPacket.init ((makepacket m t []).take HEADER_SIZE) = .ok p ∧
        (p.validate ((makepacket m t []).drop HEADER_SIZE)).2 = none) ∧
    ((makepacket m t data).getD 4 0 * 256 + (makepacket m t data).getD 5 0 = 65535 ∧
      (makepacket m t data).length = 65535 ∧ 65535 = 2 ^ 16 - 1) := by
  refine ⟨⟨?_, ?_⟩, ?_, ?_, by norm_num⟩
  · rw [makepacket_eq, getD_append_left _ _ _ _ (by rw [pack_header_length]; decide),
      getD_append_left _ _ _ _ (by rw [pack_header_length]; decide), pack_getD4, pack_getD5]
    norm_num [HEADER_SIZE]
  · exact ⟨_, init_makepacket m t [] hm ht (by simp) (by simp),
      by rw [makepacket_drop, validate_of_eq _ _ (calculateChecksum_append _ [] 0).symm]⟩
  · rw [makepacket_eq, getD_append_left _ _ _ _ (by rw [pack_header_length]; decide),
      getD_append_left _ _ _ _ (by rw [pack_header_length]; decide), pack_getD4, pack_getD5,
      hlen]
    norm_num [HEADER_SIZE]
  · rw [makepacket_length, hlen]

theorem size_boundaries_witness :
    (1 : Nat) < 256 ∧ (0 : Nat) < 2 ^ 64 ∧
    (∀ b ∈ List.replicate 65519 (0 : Nat), b < 256) ∧
    (List.replicate 65519 (0 : Nat)).length = 65519 ∧
    (((makepacket 1 0 []).getD 4 0 * 256 + (makepacket 1 0 []).getD 5 0 = 16 ∧
      ∃ p, ReceivedPacket.init ((makepacket 1 0 []).take HEADER_SIZE) = .ok p ∧
        (p.validate ((makepacket 1 0 []).drop HEADER_SIZE)).2 = none) ∧
     ((makepacket 1 0 (List.replicate 65519 0)).getD 4 0 * 256 +
        (makepacket 1 0 (List.replicate 65519 0)).getD 5 0 = 65535 ∧
      (makepacket 1 0 (List.replicate 65519 0)).length = 65535 ∧ 65535 = 2 ^ 16 - 1)) :=
  ⟨by decide, by decide, fun b hb => by rw [List.eq_of_mem_replicate hb]; decide,
    List.length_replicate 65519 0,
    size_boundaries 1 0 (List.replicate 65519 0) (by decide) (by decide)
      (fun b hb => by rw [List.eq_of_mem_replicate hb]; decide)
      (List.length_replicate 65519 0)⟩

/-- C8: Header re-serialization frame effect. For every 16-byte buffer
of bytes that passes construction, the stored header buffer has the two
checksum-field bytes (offsets 6-7) equal to zero, and every other byte
equal to the buffer as passed in. -/
theorem header_reserialization (buf : List Nat) (p : ReceivedPacket)
    (hbytes : ∀ b ∈ buf, b < 256)
    (hok : ReceivedPacket.init buf = .ok p) :
    p.header.getD 6 0 = 0 ∧ p.header.getD 7 0 = 0 ∧
    ∀ i, i < 16 → i ≠ 6 → i ≠ 7 → p.header.getD i 0 = buf.getD i 0 := by
  obtain ⟨hlen, hsync⟩ := init_ok_elim buf p hok
  have h0 : buf.getD 0 0 = 0xA3 := congrArg Prod.fst hsync
  have h1 : buf.getD 1 0 = 0x9D := congrArg (fun x => x.2.1) hsync
  have h2 : buf.getD 2 0 = 0x7A := congrArg (fun x => x.2.2) hsync
  rw [init_valid buf hlen hbytes h0 h1 h2] at hok
  have hp : p = { header := (buf.set 6 0).set 7 0,
                  msgtype := buf.getD 3 0,
                  pktsize := buf.getD 4 0 * 256 + buf.getD 5 0,
                  checksum := buf.getD 6 0 * 256 + buf.getD 7 0,
                  timestamp := u64de ((buf.drop 8).take 8),
                  datasize := (buf.getD 4 0 * 256 + buf.getD 5 0 : Int) - 16,
                  data := none } := ((Except.ok.injEq _ _).mp hok).symm
  subst hp
  refine ⟨?_, ?_, ?_⟩
  · rw [show (7 : Nat) ≠ 6 by omega |> getD_set_ne (buf.set 6 0) 7 6 0 0,
      getD_set_self buf 6 0 0 (by omega)]
  · rw [getD_set_self (buf.set 6 0) 7 0 0 (by simp; omega)]
  · intro i hi16 h6 h7
    rw [getD_set_ne (buf.set 6 0) 7 i 0 0 (by omega), getD_set_ne buf 6 i 0 0 (by omega)]

theorem header_reserialization_witness :
    (∀ b ∈ pack_header 1 18 5 3, b < 256) ∧
    ReceivedPacket.init (pack_header 1 18 5 3) =
      .ok { header := pack_header 1 18 0 3, msgtype := 1, pktsize := 18, checksum := 5,
            timestamp := 3, datasize := 2, data := none } ∧
    ((pack_header 1 18 0 3).getD 6 0 = 0 ∧ (pack_header 1 18 0 3).getD 7 0 = 0 ∧
      ∀ i, i < 16 → i ≠ 6 → i ≠ 7 →
        (pack_header 1 18 0 3).getD i 0 = (pack_header 1 18 5 3).getD i 0) :=
  ⟨by decide, by rfl,
    header_reserialization (pack_header 1 18 5 3) _ (by decide) (by rfl)⟩

/-- C9: The checksum is only ever 8 bits wide despite the 16-bit field:
a byte-bounded fold stays below 256, the checksum field of every built
packet is at most 255, and a received packet whose checksum field is 256
or greater can never pass `validate`. -/
theorem checksum_width :
    (∀ seed, seed < 256 → ∀ data : List Nat, (∀ b ∈ data, b < 256) →
      calculateChecksum data seed < 256) ∧
    (∀ (m t : Nat) (data : List Nat), m < 256 → t < 2 ^ 64 → (∀ b ∈ data, b < 256) →
      data.length ≤ 65519 →
      (makepacket m t data).getD 6 0 * 256 + (makepacket m t data).getD 7 0 ≤ 255) ∧
    (∀ (buf : List Nat) (p : ReceivedPacket), ReceivedPacket.init buf = .ok p →
      256 ≤ p.checksum → ∀ d : List Nat, (∀ b ∈ d, b < 256) →
      (p.validate d).2 ≠ none) := by
  refine ⟨?_, ?_, ?_⟩
  · intro seed hs data hd
    exact calculateChecksum_lt data seed hd hs
  · intro m t data hm ht hd hl
    have hc : calculateChecksum (pack_header m (HEADER_SIZE + data.length) 0 t ++ data) < 256 :=
      makepacket_checksum_lt m (HEADER_SIZE + data.length) t data hd
    rw [makepacket_eq, getD_append_left _ _ _ _ (by rw [pack_header_length]; decide),
      getD_append_left _ _ _ _ (by rw [pack_header_length]; decide), pack_getD6, pack_getD7]
    omega
  · intro buf p hok hcs d hd
    have hh := init_ok_header_bytes buf p hok
    have hrx : calculateChecksum d (calculateChecksum p.header) < 256 :=
      calculateChecksum_lt d _ hd (calculateChecksum_lt p.header 0 hh (by omega))
    rw [validate_of_ne p d (by omega)]
    simp

theorem checksum_width_witness :
    (1 : Nat) < 256 ∧ (∀ b ∈ [7], (b : Nat) < 256) ∧ calculateChecksum [7] 1 < 256 :=
  ⟨by decide, by decide, checksum_width.1 1 (by decide) [7] (by decide)⟩

/-- C10: The constructor performs no lower-bound check on pktsize: a
well-formed header whose pktsize field is below 16 is accepted, and the
exposed `datasize` attribute is negative instead of an error being
raised. -/
theorem datasize_negative (buf : List Nat) (hlen : buf.length = 16)
    (hbytes : ∀ b ∈ buf, b < 256)
    (h0 : buf.getD 0 0 = 0xA3) (h1 : buf.getD 1 0 = 0x9D) (h2 : buf.getD 2 0 = 0x7A)
    (hsmall : buf.getD 4 0 * 256 + buf.getD 5 0 < 16) :
    ∃ p : ReceivedPacket,
      ReceivedPacket.init buf = .ok p ∧
      p.datasize = (buf.getD 4 0 * 256 + buf.getD 5 0 : Int) - 16 ∧
      p.datasize < 0 := by
  refine ⟨_, init_valid buf hlen hbytes h0 h1 h2, rfl, ?_⟩
  show (buf.getD 4 0 * 256 + buf.getD 5 0 : Int) - 16 < 0
  omega

theorem datasize_negative_witness :
    ([163, 157, 122, 0, 0, 0, 0, 0, 0, 0, 0, 0, 0, 0, 0, 0] : List Nat).length = 16 ∧
    (∀ b ∈ ([163, 157, 122, 0, 0, 0, 0, 0, 0, 0, 0, 0, 0, 0, 0, 0] : List Nat), b < 256) ∧
    ([163, 157, 122, 0, 0, 0, 0, 0, 0, 0, 0, 0, 0, 0, 0, 0] : List Nat).getD 0 0 = 0xA3 ∧
    ([163, 157, 122, 0, 0, 0, 0, 0, 0, 0, 0, 0, 0, 0, 0, 0] : List Nat).getD 1 0 = 0x9D ∧
    ([163, 157, 122, 0, 0, 0, 0, 0, 0, 0, 0, 0, 0, 0, 0, 0] : List Nat).getD 2 0 = 0x7A ∧
    ([163, 157, 122, 0, 0, 0, 0, 0, 0, 0, 0, 0, 0, 0, 0, 0] : List Nat).getD 4 0 * 256 +
      ([163, 157, 122, 0, 0, 0, 0, 0, 0, 0, 0, 0, 0, 0, 0, 0] : List Nat).getD 5 0 < 16 ∧
    ∃ p : ReceivedPacket,
      ReceivedPacket.init [163, 157, 122, 0, 0, 0, 0, 0, 0, 0, 0, 0, 0, 0, 0, 0] = .ok p ∧
      p.datasize =
        (([163, 157, 122, 0, 0, 0, 0, 0, 0, 0, 0, 0, 0, 0, 0, 0] : List Nat).getD 4 0 * 256 +
          ([163, 157, 122, 0, 0, 0, 0, 0, 0, 0, 0, 0, 0, 0, 0, 0] : List Nat).getD 5 0 : Int) -
          16 ∧
      p.datasize < 0 :=
  ⟨by decide, by decide, by decide, by decide, by decide, by decide,
    datasize_negative [163, 157, 122, 0, 0, 0, 0, 0, 0, 0, 0, 0, 0, 0, 0, 0]
      (by decide) (by decide) (by decide) (by decide) (by decide) (by decide)⟩

end PortAgent
